import Mathlib

/-!
Shallow embedding of the Tusday.com task-board repository layer.

The Python source keeps two backends with one contract:
* a persistent SQLite/SQLAlchemy backend (`src/models.py`, the `else` branches
  of `src/ui/tasks.py` and `src/ui/boards.py`), modelled here as the record
  `DB` holding the five tables as lists in insertion (rowid) order, with
  per-table autoincrement counters;
* an ephemeral guest backend (the `is_guest` branches), modelled as
  `GuestState` / `SidebarState` holding Python lists and dicts.

Python dicts are modelled as association lists with first-occurrence update
(`dictSet` / `dictFind`); SQLAlchemy's `query(...).first()` followed by an
in-place mutation of the returned row is modelled by `List.find?` plus
`updateFirst`.
-/

set_option autoImplicit false

namespace Tusday

/-- Mutate the first element satisfying `p` (the row returned by
`query(...).first()`), leaving the rest of the table untouched. -/
def updateFirst {α : Type} (p : α → Bool) (f : α → α) : List α → List α
  | [] => []
  | x :: xs => if p x then f x :: xs else x :: updateFirst p f xs

/-- Python `d.get(k)` on a dict modelled as an association list. -/
def dictFind {α : Type} (k : Nat) (d : List (Nat × α)) : Option α :=
  (d.find? (fun e => e.1 == k)).map (fun e => e.2)

/-- Python `d[k] = v`: replace the value at the first occurrence of `k`,
else append a fresh binding. -/
def dictSet {α : Type} (k : Nat) (v : α) : List (Nat × α) → List (Nat × α)
  | [] => [(k, v)]
  | e :: es => if e.1 == k then (e.1, v) :: es else e :: dictSet k v es

/-- Number of bindings a key has in an association list. -/
def countKey {α : Type} (k : Nat) (d : List (Nat × α)) : Nat :=
  d.countP (fun e => e.1 == k)

/-- Python `list.index` (`some` first index, `none` for `ValueError`). -/
def listIndex (v : String) : List String → Option Nat
  | [] => none
  | s :: rest => if s == v then some 0 else (listIndex v rest).map (fun i => i + 1)

/-- The keys of `STATUS_OPTIONS` in `src/ui/tasks.py`, in dict order. -/
def STATUS_OPTIONS : List String := ["Done", "Working On It", "Stuck", ""]

/-- The pure transition computed by `TaskTableView.cycle_status`:
`status_list.index(current_value)` advanced by one modulo the length, with
`ValueError` (value not in the list) resetting to index 0. -/
def next_status (current : String) : String :=
  match listIndex current STATUS_OPTIONS with
  | some i => STATUS_OPTIONS.getD ((i + 1) % STATUS_OPTIONS.length) ""
  | none => STATUS_OPTIONS.getD 0 ""

/-! ## Guest (ephemeral) backend: `TaskTableView` instance fields -/

/-- Anonymous `GuestColumn` record built by `type('GuestColumn', (), ...)`. -/
structure GuestColumn where
  id : Nat
  name : String
  column_type : String
  position : Nat
  deriving DecidableEq

/-- Anonymous `GuestTask` record built by `type('GuestTask', (), ...)`. -/
structure GuestTask where
  id : Nat
  name : String
  position : Nat
  board_id : Nat
  deriving DecidableEq

/-- The guest-mode fields of a `TaskTableView` instance:
`guest_columns`, `guest_tasks`, `guest_cells` (a dict of dicts
`{task_id: {column_id: value}}`) and the two id counters. -/
structure GuestState where
  guest_columns : List GuestColumn
  guest_tasks : List GuestTask
  guest_cells : List (Nat × List (Nat × String))
  guest_column_counter : Nat
  guest_task_counter : Nat
  deriving DecidableEq

/-- The field values assigned at the top of `TaskTableView.__init__`. -/
def emptyGuestState : GuestState :=
  { guest_columns := []
    guest_tasks := []
    guest_cells := []
    guest_column_counter := 0
    guest_task_counter := 0 }

/-- `TaskTableView._create_default_columns_guest`: append the three default
columns, incrementing the column counter before each append. -/
def create_default_columns_guest (s : GuestState) : GuestState :=
  { s with
    guest_column_counter := s.guest_column_counter + 3
    guest_columns := s.guest_columns ++
      [ { id := s.guest_column_counter + 1, name := "Status", column_type := "status", position := 0 },
        { id := s.guest_column_counter + 2, name := "Notes", column_type := "text", position := 1 },
        { id := s.guest_column_counter + 3, name := "Due Date", column_type := "date", position := 2 } ] }

/-- The guest seeding step as called from `__init__`
(`if is_guest and not self.guest_columns: self._create_default_columns_guest()`). -/
def seed_default_columns_guest (s : GuestState) : GuestState :=
  if s.guest_columns.isEmpty then create_default_columns_guest s else s

/-- Guest-mode state of a freshly constructed `TaskTableView`: empty fields
followed by the guarded seeding call. -/
def task_table_view_init_guest : GuestState :=
  seed_default_columns_guest emptyGuestState

/-- `DashboardView.refresh_board_view` constructs a brand-new `BoardView`,
whose constructor builds a brand-new `TaskTableView`; the old instance (and
with it all guest fields) is dropped. -/
def refresh_board_view_guest (_old : GuestState) : GuestState :=
  task_table_view_init_guest

/-- `TaskTableView.get_cell_value`, guest branch:
`self.guest_cells.get(task.id, {}).get(column.id, "")`. -/
def get_cell_value_guest (s : GuestState) (task_id column_id : Nat) : String :=
  (dictFind column_id ((dictFind task_id s.guest_cells).getD [])).getD ""

/-- `TaskTableView.update_cell`, guest branch: ensure the inner dict for the
task exists, then `self.guest_cells[task.id][column.id] = value`. -/
def update_cell_guest (s : GuestState) (task_id column_id : Nat) (value : String) : GuestState :=
  { s with
    guest_cells :=
      dictSet task_id
        (dictSet column_id value ((dictFind task_id s.guest_cells).getD []))
        s.guest_cells }

/-- `TaskTableView.cycle_status`, guest backend: read the current value,
compute the next status, write it back via `update_cell`. -/
def cycle_status_guest (s : GuestState) (task_id column_id : Nat) : GuestState :=
  update_cell_guest s task_id column_id (next_status (get_cell_value_guest s task_id column_id))

/-- `TaskTableView.add_task`, guest branch: increment the counter, append a
task named after the counter with position `len(self.guest_tasks)`. -/
def add_task_guest (s : GuestState) (board_id : Nat) : GuestState :=
  { s with
    guest_task_counter := s.guest_task_counter + 1
    guest_tasks := s.guest_tasks ++
      [ { id := s.guest_task_counter + 1,
          name := "New Task " ++ toString (s.guest_task_counter + 1),
          position := s.guest_tasks.length,
          board_id := board_id } ] }

/-- `TaskTableView.delete_task`, guest branch: drop the task from the list and
delete its entry from `guest_cells`. -/
def delete_task_guest (s : GuestState) (task_id : Nat) : GuestState :=
  { s with
    guest_tasks := s.guest_tasks.filter (fun t => t.id != task_id)
    guest_cells := s.guest_cells.filter (fun e => e.1 != task_id) }

/-- `TaskTableView.delete_column`, guest branch: drop the column from the list
and delete the column key from every task's cell dict. -/
def delete_column_guest (s : GuestState) (column_id : Nat) : GuestState :=
  { s with
    guest_columns := s.guest_columns.filter (fun c => c.id != column_id)
    guest_cells := s.guest_cells.map (fun e => (e.1, e.2.filter (fun kv => kv.1 != column_id))) }

/-! ## Persistent backend: the SQLite tables of `src/models.py` -/

/-- Row of `users`. -/
structure DBUser where
  id : Nat
  username : String
  email : String
  password_hash : String
  deriving DecidableEq

/-- Row of `boards`. -/
structure DBBoard where
  id : Nat
  name : String
  user_id : Nat
  deriving DecidableEq

/-- Row of `board_columns`. -/
structure DBColumn where
  id : Nat
  board_id : Nat
  name : String
  column_type : String
  position : Nat
  deriving DecidableEq

/-- Row of `tasks`. -/
structure DBTask where
  id : Nat
  board_id : Nat
  name : String
  position : Nat
  deriving DecidableEq

/-- Row of `task_cells`. -/
structure DBCell where
  id : Nat
  task_id : Nat
  column_id : Nat
  value : String
  deriving DecidableEq

/-- The persistent database: tables in rowid (insertion) order plus the
autoincrement counter of each table. -/
structure DB where
  users : List DBUser
  boards : List DBBoard
  board_columns : List DBColumn
  tasks : List DBTask
  task_cells : List DBCell
  next_user_id : Nat
  next_board_id : Nat
  next_column_id : Nat
  next_task_id : Nat
  next_cell_id : Nat
  deriving DecidableEq

/-- Filter of `query(TaskCell).filter_by(task_id=..., column_id=...)`. -/
def cellMatches (task_id column_id : Nat) (c : DBCell) : Bool :=
  c.task_id == task_id && c.column_id == column_id

/-- Number of `task_cells` rows for one `(task_id, column_id)` pair. -/
def db_cell_count (db : DB) (task_id column_id : Nat) : Nat :=
  db.task_cells.countP (cellMatches task_id column_id)

/-- Number of bindings a `(task_id, column_id)` pair has in a nested cell dict. -/
def pairSum (task_id column_id : Nat) (d : List (Nat × List (Nat × String))) : Nat :=
  (d.map (fun e => if e.1 == task_id then countKey column_id e.2 else 0)).sum

/-- Number of cell bindings held in `guest_cells` for one pair. -/
def guest_cell_count (s : GuestState) (task_id column_id : Nat) : Nat :=
  pairSum task_id column_id s.guest_cells

/-- `TaskTableView.get_cell_value`, persistent branch:
`cell.value if cell else ""` on the first matching row. -/
def get_cell_value_db (db : DB) (task_id column_id : Nat) : String :=
  match db.task_cells.find? (cellMatches task_id column_id) with
  | some c => c.value
  | none => ""

/-- `TaskTableView.update_cell`, persistent branch: read-before-write upsert —
mutate the first matching row if one exists, else insert a fresh row. -/
def update_cell_db (db : DB) (task_id column_id : Nat) (value : String) : DB :=
  match db.task_cells.find? (cellMatches task_id column_id) with
  | some _ =>
      { db with
        task_cells :=
          updateFirst (cellMatches task_id column_id) (fun c => { c with value := value })
            db.task_cells }
  | none =>
      { db with
        task_cells := db.task_cells ++
          [ { id := db.next_cell_id, task_id := task_id, column_id := column_id, value := value } ]
        next_cell_id := db.next_cell_id + 1 }

/-- `TaskTableView.cycle_status`, persistent backend. -/
def cycle_status_db (db : DB) (task_id column_id : Nat) : DB :=
  update_cell_db db task_id column_id (next_status (get_cell_value_db db task_id column_id))

/-- `TaskTableView._ensure_default_columns`: count the board's columns and
insert the three defaults only when the count is zero. -/
def ensure_default_columns (db : DB) (board_id : Nat) : DB :=
  let existing := (db.board_columns.filter (fun c => c.board_id == board_id)).length
  if existing == 0 then
    { db with
      board_columns := db.board_columns ++
        [ { id := db.next_column_id, board_id := board_id,
            name := "Status", column_type := "status", position := 0 },
          { id := db.next_column_id + 1, board_id := board_id,
            name := "Notes", column_type := "text", position := 1 },
          { id := db.next_column_id + 2, board_id := board_id,
            name := "Due Date", column_type := "date", position := 2 } ]
      next_column_id := db.next_column_id + 3 }
  else db

/-- `TaskTableView.add_task`, persistent branch: count the board's tasks,
insert `New Task (count+1)` at position `count`. -/
def add_task_db (db : DB) (board_id : Nat) : DB :=
  let task_count := (db.tasks.filter (fun t => t.board_id == board_id)).length
  { db with
    tasks := db.tasks ++
      [ { id := db.next_task_id, board_id := board_id,
          name := "New Task " ++ toString (task_count + 1), position := task_count } ]
    next_task_id := db.next_task_id + 1 }

/-- `TaskTableView.delete_task`, persistent branch: `session.delete` on the
task row; the ORM relationship `Task.cells` carries
`cascade="all, delete-orphan"`, so the task's cell rows are deleted with it. -/
def delete_task_db (db : DB) (task_id : Nat) : DB :=
  match db.tasks.find? (fun t => t.id == task_id) with
  | some t =>
      { db with
        tasks := db.tasks.filter (fun x => x.id != t.id)
        task_cells := db.task_cells.filter (fun c => c.task_id != t.id) }
  | none => db

/-- `TaskTableView.delete_column`, persistent branch: `session.delete` on the
column row only. `models.py` defines no relationship and no cascade from
`BoardColumn` to `TaskCell`, and `database.py` never enables SQLite foreign-key
enforcement, so rows of `task_cells` referencing the column stay behind. -/
def delete_column_db (db : DB) (column_id : Nat) : DB :=
  match db.board_columns.find? (fun c => c.id == column_id) with
  | some c =>
      { db with board_columns := db.board_columns.filter (fun x => x.id != c.id) }
  | none => db

/-- Snackbar notification surfaced to the user (`show_snackbar`):
an error (red) or a success (green) message. -/
inductive Snack where
  | err (msg : String)
  | ok (msg : String)
  deriving DecidableEq

/-- `BoardSidebar.show_rename_dialog.rename_board`, persistent branch: the
empty-name guard, then `query(Board).filter_by(id=...).first()`; if a row is
found it is renamed and a success snackbar is shown, otherwise nothing at all
happens (no snackbar, no state change). -/
def rename_board_db (db : DB) (board_id : Nat) (new_name : String) : DB × Option Snack :=
  if new_name == "" then (db, some (.err "Board name is required"))
  else
    match db.boards.find? (fun b => b.id == board_id) with
    | some _ =>
        ({ db with
           boards :=
             updateFirst (fun b => b.id == board_id) (fun b => { b with name := new_name })
               db.boards },
         some (.ok ("Board renamed to " ++ new_name)))
    | none => (db, none)

/-- `BoardSidebar.show_delete_dialog.delete_board`, persistent branch:
`session.delete` on the board row; the ORM cascades run board → columns,
board → tasks and task → cells (`cascade="all, delete-orphan"` on
`Board.columns`, `Board.tasks` and `Task.cells`). A missing id does nothing. -/
def delete_board_db (db : DB) (board_id : Nat) : DB × Option Snack :=
  match db.boards.find? (fun b => b.id == board_id) with
  | some b =>
      let boardTaskIds := (db.tasks.filter (fun t => t.board_id == b.id)).map (fun t => t.id)
      ({ db with
         boards := db.boards.filter (fun x => x.id != b.id)
         board_columns := db.board_columns.filter (fun c => c.board_id != b.id)
         tasks := db.tasks.filter (fun t => t.board_id != b.id)
         task_cells := db.task_cells.filter (fun c => !(boardTaskIds.contains c.task_id)) },
       some (.ok ("Board " ++ b.name ++ " deleted")))
  | none => (db, none)

/-- Anonymous `GuestBoard` record of `BoardSidebar` (timestamps omitted). -/
structure GuestBoard where
  id : Nat
  name : String
  deriving DecidableEq

/-- Guest-mode fields of `BoardSidebar`. -/
structure SidebarState where
  guest_boards : List GuestBoard
  guest_board_counter : Nat
  deriving DecidableEq

/-- `rename_board`, guest branch: update the matching board if any, then show
the success snackbar unconditionally. -/
def rename_board_guest (s : SidebarState) (board_id : Nat) (new_name : String) :
    SidebarState × Option Snack :=
  if new_name == "" then (s, some (.err "Board name is required"))
  else
    ({ s with
       guest_boards :=
         updateFirst (fun b => b.id == board_id) (fun b => { b with name := new_name })
           s.guest_boards },
     some (.ok ("Board renamed to " ++ new_name)))

/-- `delete_board`, guest branch: filter the board out (a no-op for a missing
id) and show the success snackbar unconditionally; `board_name` is the name
carried by the stale board object the dialog holds. -/
def delete_board_guest (s : SidebarState) (board_id : Nat) (board_name : String) :
    SidebarState × Option Snack :=
  ({ s with guest_boards := s.guest_boards.filter (fun b => b.id != board_id) },
   some (.ok ("Board " ++ board_name ++ " deleted")))

/-! ## Credential store: `src/auth.py` -/

/-- Outcome of `LoginView.handle_login`, by snackbar shown. -/
inductive LoginResult where
  | fillFields
  | success (user_id : Nat)
  | invalid (msg : String)
  deriving DecidableEq

/-- `LoginView.handle_login`: empty-field guard, then
`query(User).filter_by(username=...).first()`; the single `else` branch shows
the same `"Invalid username or password"` snackbar both when no user matches
and when `check_password` fails. `verify` stands for `bcrypt.verify`. -/
def handle_login (verify : String → String → Bool) (users : List DBUser)
    (username password : String) : LoginResult :=
  if username == "" || password == "" then .fillFields
  else
    match users.find? (fun u => u.username == username) with
    | some u =>
        if verify password u.password_hash then .success u.id
        else .invalid "Invalid username or password"
    | none => .invalid "Invalid username or password"

/-- Outcome of `SignupView.handle_signup`, by snackbar shown. -/
inductive SignupResult where
  | fillFields
  | passwordMismatch
  | weakPassword
  | duplicateUsername
  | duplicateEmail
  | created (user_id : Nat)
  deriving DecidableEq

/-- The user table with its autoincrement counter, as touched by signup. -/
structure AuthDB where
  users : List DBUser
  next_user_id : Nat
  deriving DecidableEq

/-- `SignupView.handle_signup`: field/match/strength validation, then one
combined lookup `filter((User.username == username) | (User.email == email))
.first()`; on a hit the username field of that one row decides which duplicate
is reported; otherwise the user is inserted with `hash password` stored
(`hash` stands for `bcrypt.hash`). -/
def handle_signup (hash : String → String) (db : AuthDB)
    (username email password confirm_password : String) : AuthDB × SignupResult :=
  if username == "" || email == "" || password == "" || confirm_password == "" then
    (db, .fillFields)
  else if password != confirm_password then (db, .passwordMismatch)
  else if password.length < 6 then (db, .weakPassword)
  else
    match db.users.find? (fun u => u.username == username || u.email == email) with
    | some u =>
        if u.username == username then (db, .duplicateUsername) else (db, .duplicateEmail)
    | none =>
        ({ users := db.users ++
             [ { id := db.next_user_id, username := username,
                 email := email, password_hash := hash password } ],
           next_user_id := db.next_user_id + 1 },
         .created db.next_user_id)

/-! ## Concrete fixtures used by counterexamples and witnesses -/

/-- A database whose only board (id 1) has one column (id 1), one task (id 1)
and one cell (task 1, column 1, value "x"). -/
def populatedDB : DB :=
  { users := []
    boards := [{ id := 1, name := "B", user_id := 1 }]
    board_columns := [{ id := 1, board_id := 1, name := "Status", column_type := "status", position := 0 }]
    tasks := [{ id := 1, board_id := 1, name := "New Task 1", position := 0 }]
    task_cells := [{ id := 1, task_id := 1, column_id := 1, value := "x" }]
    next_user_id := 1
    next_board_id := 2
    next_column_id := 2
    next_task_id := 2
    next_cell_id := 2 }

/-- A database with no rows at all. -/
def emptyDB : DB :=
  { users := []
    boards := []
    board_columns := []
    tasks := []
    task_cells := []
    next_user_id := 1
    next_board_id := 2
    next_column_id := 2
    next_task_id := 2
    next_cell_id := 2 }

/-- Guest table view after adding one task and writing "x" into its cell for
column 1 (the seeded Status column). -/
def populatedGuest : GuestState :=
  update_cell_guest (add_task_guest task_table_view_init_guest 1) 1 1 "x"

/-- Guest table view after adding one task and deleting it again: the board
holds zero tasks but the task counter is already at 1. -/
def guestAfterAddDelete : GuestState :=
  delete_task_guest (add_task_guest task_table_view_init_guest 1) 1

/-- The user table right after alice's successful registration. -/
def aliceDB (hash : String → String) : AuthDB :=
  { users := [ { id := 1, username := "alice", email := "a@x.com",
                 password_hash := hash "secret1" } ]
    next_user_id := 2 }

/-! ## Supporting lemmas -/

theorem updateFirst_of_find?_none {α : Type} {p : α → Bool} (f : α → α) {l : List α}
    (h : l.find? p = none) : updateFirst p f l = l := by
  induction l with
  | nil => rfl
  | cons x xs ih =>
      cases hx : p x with
      | true => rw [List.find?_cons_of_pos _ hx] at h; cases h
      | false =>
          rw [List.find?_cons_of_neg _ (by simp [hx])] at h
          simp [updateFirst, hx, ih h]

theorem find?_updateFirst {α : Type} {p : α → Bool} {f : α → α}
    (hf : ∀ a, p (f a) = p a) (l : List α) :
    (updateFirst p f l).find? p = (l.find? p).map f := by
  induction l with
  | nil => rfl
  | cons x xs ih =>
      cases hx : p x with
      | true =>
          simp only [updateFirst, if_pos hx]
          rw [List.find?_cons_of_pos _ (by rw [hf x]; exact hx), List.find?_cons_of_pos _ hx]
          rfl
      | false =>
          simp only [updateFirst, hx, Bool.false_eq_true, if_false]
          rw [List.find?_cons_of_neg _ (by simp [hx]), List.find?_cons_of_neg _ (by simp [hx]), ih]

theorem countP_updateFirst {α : Type} {p : α → Bool} {f : α → α}
    (hf : ∀ a, p (f a) = p a) (l : List α) :
    (updateFirst p f l).countP p = l.countP p := by
  induction l with
  | nil => rfl
  | cons x xs ih =>
      cases hx : p x with
      | true => simp [updateFirst, hx, List.countP_cons, hf]
      | false => simp [updateFirst, hx, List.countP_cons, ih]

theorem find?_append_of_none {α : Type} {p : α → Bool} {l1 l2 : List α}
    (h : l1.find? p = none) : (l1 ++ l2).find? p = l2.find? p := by
  induction l1 with
  | nil => rfl
  | cons x xs ih =>
      cases hx : p x with
      | true => rw [List.find?_cons_of_pos _ hx] at h; cases h
      | false =>
          rw [List.find?_cons_of_neg _ (by simp [hx])] at h
          rw [List.cons_append, List.find?_cons_of_neg _ (by simp [hx]), ih h]

theorem dictFind_dictSet_self {α : Type} (k : Nat) (v : α) (d : List (Nat × α)) :
    dictFind k (dictSet k v d) = some v := by
  induction d with
  | nil => simp [dictFind, dictSet]
  | cons e es ih =>
      by_cases he : (e.1 == k) = true
      · simp [dictSet, he, dictFind]
      · have heq : ¬ e.1 = k := by simpa using he
        calc dictFind k (dictSet k v (e :: es))
            = dictFind k (e :: dictSet k v es) := by simp [dictSet, heq]
          _ = dictFind k (dictSet k v es) := by
              unfold dictFind
              rw [List.find?_cons_of_neg _ (by simpa using he)]
          _ = some v := ih

theorem countKey_dictSet_self {α : Type} (k : Nat) (v : α) (d : List (Nat × α)) :
    countKey k (dictSet k v d) = max (countKey k d) 1 := by
  induction d with
  | nil => simp [countKey, dictSet]
  | cons e es ih =>
      by_cases he : (e.1 == k) = true
      · simp [dictSet, he, countKey, List.countP_cons]
      · have he2 : (e.1 == k) = false := by simpa using he
        simpa [dictSet, he2, countKey, List.countP_cons] using ih

theorem countKey_cons {α : Type} (k : Nat) (e : Nat × α) (es : List (Nat × α)) :
    countKey k (e :: es) = countKey k es + (if e.1 == k then 1 else 0) :=
  List.countP_cons _ _ _

theorem pairSum_cons (t c : Nat) (e : Nat × List (Nat × String))
    (es : List (Nat × List (Nat × String))) :
    pairSum t c (e :: es) = (if e.1 == t then countKey c e.2 else 0) + pairSum t c es := rfl

theorem pairSum_of_countKey_zero {t c : Nat} {d : List (Nat × List (Nat × String))}
    (h : countKey t d = 0) : pairSum t c d = 0 := by
  induction d with
  | nil => rfl
  | cons e es ih =>
      rw [countKey_cons] at h
      rw [pairSum_cons]
      by_cases heq : e.1 = t
      · rw [if_pos (by simpa using heq)] at h
        omega
      · rw [if_neg (by simpa using heq)] at h
        rw [if_neg (by simpa using heq)]
        simpa using ih (by omega)

theorem pairSum_dictSet {t c : Nat} {inner : List (Nat × String)}
    {d : List (Nat × List (Nat × String))} (h : countKey t d ≤ 1) :
    pairSum t c (dictSet t inner d) = countKey c inner := by
  induction d with
  | nil => simp [pairSum, dictSet, countKey]
  | cons e es ih =>
      rw [countKey_cons] at h
      by_cases heq : e.1 = t
      · rw [if_pos (by simpa using heq)] at h
        have hz : countKey t es = 0 := by omega
        have hd : dictSet t inner (e :: es) = (e.1, inner) :: es := by
          simp [dictSet, heq]
        rw [hd, pairSum_cons, if_pos (by simpa using heq),
            pairSum_of_countKey_zero (t := t) (c := c) hz]
        simp
      · rw [if_neg (by simpa using heq)] at h
        have hd : dictSet t inner (e :: es) = e :: dictSet t inner es := by
          simp [dictSet, heq]
        rw [hd, pairSum_cons, if_neg (by simpa using heq), ih (by omega)]
        simp

theorem cellMatches_set_value (t c : Nat) (v : String) (x : DBCell) :
    cellMatches t c { x with value := v } = cellMatches t c x := rfl

theorem get_update_db (db : DB) (t c : Nat) (v : String) :
    get_cell_value_db (update_cell_db db t c v) t c = v := by
  unfold update_cell_db
  cases h : db.task_cells.find? (cellMatches t c) with
  | some a =>
      simp only [get_cell_value_db]
      rw [find?_updateFirst (cellMatches_set_value t c v), h]
      rfl
  | none =>
      simp only [get_cell_value_db]
      rw [find?_append_of_none h]
      simp [List.find?, cellMatches]

theorem db_cell_count_update (db : DB) (t c : Nat) (v : String) :
    db_cell_count (update_cell_db db t c v) t c = max (db_cell_count db t c) 1 := by
  unfold update_cell_db
  cases h : db.task_cells.find? (cellMatches t c) with
  | some a =>
      simp only [db_cell_count]
      rw [countP_updateFirst (cellMatches_set_value t c v)]
      have hpos : 0 < db.task_cells.countP (cellMatches t c) :=
        List.countP_pos_iff.mpr ⟨a, List.mem_of_find?_eq_some h, List.find?_some h⟩
      omega
  | none =>
      simp only [db_cell_count, List.countP_append]
      have h0 : db.task_cells.countP (cellMatches t c) = 0 :=
        List.countP_eq_zero.mpr (fun a ha => by
          simpa using List.find?_eq_none.mp h a ha)
      rw [h0]
      simp [List.countP, List.countP.go, cellMatches]

theorem get_update_guest (s : GuestState) (t c : Nat) (v : String) :
    get_cell_value_guest (update_cell_guest s t c v) t c = v := by
  unfold get_cell_value_guest update_cell_guest
  simp [dictFind_dictSet_self]

theorem listIndex_eq_none_of_not_mem {v : String} {l : List String} (h : v ∉ l) :
    listIndex v l = none := by
  induction l with
  | nil => rfl
  | cons s rest ih =>
      have hs : (s == v) = false := beq_eq_false_iff_ne.mpr (fun he => h (by simp [he]))
      simp [listIndex, hs, ih (fun hm => h (List.mem_cons_of_mem _ hm))]

/-! ## Claims -/

/-- C1: for every (task, column) pair and every string value, `setCellValue`
followed by `getCellValue` returns exactly the written value, in both the
persistent and the ephemeral backend; and, starting from a state with at most
one cell for the pair, two successive writes with different values leave
exactly one cell for the pair holding the latest value (the persistent upsert
updates the existing row, else inserts; the guest dict write replaces the
binding). -/
theorem cell_roundtrip_and_upsert :
    (∀ (db : DB) (t c : Nat) (v : String),
        get_cell_value_db (update_cell_db db t c v) t c = v) ∧
    (∀ (s : GuestState) (t c : Nat) (v : String),
        get_cell_value_guest (update_cell_guest s t c v) t c = v) ∧
    (∀ (db : DB) (t c : Nat) (v1 v2 : String), v1 ≠ v2 →
        db_cell_count db t c ≤ 1 →
        db_cell_count (update_cell_db (update_cell_db db t c v1) t c v2) t c = 1 ∧
        get_cell_value_db (update_cell_db (update_cell_db db t c v1) t c v2) t c = v2) ∧
    (∀ (s : GuestState) (t c : Nat) (v1 v2 : String), v1 ≠ v2 →
        countKey t s.guest_cells ≤ 1 →
        countKey c ((dictFind t s.guest_cells).getD []) ≤ 1 →
        guest_cell_count (update_cell_guest (update_cell_guest s t c v1) t c v2) t c = 1 ∧
        get_cell_value_guest (update_cell_guest (update_cell_guest s t c v1) t c v2) t c = v2) := by
  refine ⟨get_update_db, get_update_guest, ?_, ?_⟩
  · intro db t c v1 v2 _ hle
    refine ⟨?_, get_update_db _ t c v2⟩
    rw [db_cell_count_update, db_cell_count_update]
    omega
  · intro s t c v1 v2 _ h1 h2
    refine ⟨?_, get_update_guest _ t c v2⟩
    simp only [guest_cell_count, update_cell_guest]
    rw [dictFind_dictSet_self]
    have hk1 : countKey t (dictSet t (dictSet c v1 ((dictFind t s.guest_cells).getD []))
        s.guest_cells) ≤ 1 := by
      rw [countKey_dictSet_self]
      omega
    rw [pairSum_dictSet hk1]
    simp only [Option.getD_some]
    rw [countKey_dictSet_self, countKey_dictSet_self]
    omega

/-- C1 witness: a concrete pair of writes on `populatedDB` (which holds one
cell for pair (1,1)) and on `populatedGuest`. -/
theorem cell_roundtrip_and_upsert_witness :
    (("a" : String) ≠ "b" ∧ db_cell_count populatedDB 1 1 ≤ 1 ∧
      db_cell_count (update_cell_db (update_cell_db populatedDB 1 1 "a") 1 1 "b") 1 1 = 1 ∧
      get_cell_value_db (update_cell_db (update_cell_db populatedDB 1 1 "a") 1 1 "b") 1 1 = "b") ∧
    (countKey 1 populatedGuest.guest_cells ≤ 1 ∧
      countKey 1 ((dictFind 1 populatedGuest.guest_cells).getD []) ≤ 1 ∧
      guest_cell_count (update_cell_guest (update_cell_guest populatedGuest 1 1 "a") 1 1 "b") 1 1 = 1 ∧
      get_cell_value_guest (update_cell_guest (update_cell_guest populatedGuest 1 1 "a") 1 1 "b") 1 1 = "b") :=
  ⟨⟨by decide, by decide,
    (cell_roundtrip_and_upsert.2.2.1 populatedDB 1 1 "a" "b" (by decide) (by decide)).1,
    (cell_roundtrip_and_upsert.2.2.1 populatedDB 1 1 "a" "b" (by decide) (by decide)).2⟩,
   ⟨by decide, by decide,
    (cell_roundtrip_and_upsert.2.2.2 populatedGuest 1 1 "a" "b" (by decide) (by decide) (by decide)).1,
    (cell_roundtrip_and_upsert.2.2.2 populatedGuest 1 1 "a" "b" (by decide) (by decide) (by decide)).2⟩⟩

/-- C2: `cycle_status` is a total deterministic function of the current cell
value: it advances along the fixed wrapping cycle
Done → Working On It → Stuck → "" → Done, any value outside the cycle resets
to index 0 ("Done"), and both backends write exactly `next_status` of the
current value back through the cell upsert. -/
theorem cycle_status_spec :
    (next_status "" = "Done" ∧ next_status "Done" = "Working On It" ∧
      next_status "Working On It" = "Stuck" ∧ next_status "Stuck" = "") ∧
    (∀ v : String, v ∉ STATUS_OPTIONS → next_status v = "Done") ∧
    (∀ (db : DB) (t c : Nat),
        get_cell_value_db (cycle_status_db db t c) t c =
          next_status (get_cell_value_db db t c)) ∧
    (∀ (s : GuestState) (t c : Nat),
        get_cell_value_guest (cycle_status_guest s t c) t c =
          next_status (get_cell_value_guest s t c)) := by
  refine ⟨by decide, ?_, ?_, ?_⟩
  · intro v hv
    unfold next_status
    rw [listIndex_eq_none_of_not_mem hv]
    rfl
  · intro db t c
    exact get_update_db db t c _
  · intro s t c
    exact get_update_guest s t c _

/-- C2 witness: the out-of-cycle value "garbage" resets to "Done". -/
theorem cycle_status_spec_witness :
    ("garbage" ∉ STATUS_OPTIONS) ∧ next_status "garbage" = "Done" :=
  ⟨by decide, cycle_status_spec.2.1 "garbage" (by decide)⟩

/-- C3 (code bug): in the persistent backend, deleting column 1 of
`populatedDB` removes the column row but leaves behind the `task_cells` row
that references it — `models.py` defines no relationship or cascade from
`BoardColumn` to `TaskCell` and SQLite foreign keys are never enabled — while
the guest backend explicitly deletes the binding for the column. -/
theorem delete_column_orphan_cells :
    (delete_column_db populatedDB 1).board_columns = [] ∧
    (delete_column_db populatedDB 1).task_cells =
      [{ id := 1, task_id := 1, column_id := 1, value := "x" }] ∧
    (delete_column_guest populatedGuest 1).guest_cells = [(1, [])] ∧
    get_cell_value_guest (delete_column_guest populatedGuest 1) 1 1 = "" := by
  decide

/-- C4 counterexample: in the guest backend, after adding one task and
deleting it the board holds 0 tasks, yet the next `add_task` produces
"New Task 2" instead of the claimed "New Task 1" — the name numeral comes from
the monotone session counter, not from the current task count. -/
theorem add_task_name_counterexample :
    guestAfterAddDelete.guest_tasks.length = 0 ∧
    (add_task_guest guestAfterAddDelete 1).guest_tasks.map (fun t => t.name) = ["New Task 2"] ∧
    ("New Task 2" : String) ≠
      "New Task " ++ toString (guestAfterAddDelete.guest_tasks.length + 1) := by
  decide

/-- C4 (amended): in the persistent backend `add_task` on a board holding n
tasks appends a task named "New Task (n+1)" with position n; in the guest
backend the position is the current task count but the name numeral is the
session-monotone counter plus one, which agrees with count+1 exactly when the
counter equals the current count (no task ever deleted). -/
theorem add_task_spec_amended :
    (∀ (db : DB) (b : Nat),
        (add_task_db db b).tasks = db.tasks ++
          [ { id := db.next_task_id, board_id := b,
              name := "New Task " ++
                toString ((db.tasks.filter (fun t => t.board_id == b)).length + 1),
              position := (db.tasks.filter (fun t => t.board_id == b)).length } ]) ∧
    (∀ (s : GuestState) (b : Nat),
        (add_task_guest s b).guest_tasks = s.guest_tasks ++
          [ { id := s.guest_task_counter + 1,
              name := "New Task " ++ toString (s.guest_task_counter + 1),
              position := s.guest_tasks.length, board_id := b } ]) ∧
    (∀ (s : GuestState) (b : Nat), s.guest_task_counter = s.guest_tasks.length →
        (add_task_guest s b).guest_tasks = s.guest_tasks ++
          [ { id := s.guest_tasks.length + 1,
              name := "New Task " ++ toString (s.guest_tasks.length + 1),
              position := s.guest_tasks.length, board_id := b } ]) := by
  refine ⟨fun db b => rfl, fun s b => rfl, ?_⟩
  intro s b h
  have base : (add_task_guest s b).guest_tasks = s.guest_tasks ++
      [ { id := s.guest_task_counter + 1,
          name := "New Task " ++ toString (s.guest_task_counter + 1),
          position := s.guest_tasks.length, board_id := b } ] := rfl
  rw [base, h]

/-- C4 witness: on the fresh guest view (counter 0 = count 0) the amended
guest clause yields "New Task 1" at position 0. -/
theorem add_task_spec_amended_witness :
    task_table_view_init_guest.guest_task_counter =
      task_table_view_init_guest.guest_tasks.length ∧
    (add_task_guest task_table_view_init_guest 7).guest_tasks =
      task_table_view_init_guest.guest_tasks ++
        [ { id := task_table_view_init_guest.guest_tasks.length + 1,
            name := "New Task " ++ toString (task_table_view_init_guest.guest_tasks.length + 1),
            position := task_table_view_init_guest.guest_tasks.length, board_id := 7 } ] :=
  ⟨rfl, add_task_spec_amended.2.2 task_table_view_init_guest 7 rfl⟩

/-- C5: seeding a board with zero columns creates exactly the three default
columns Status/status/0, Notes/text/1, Due Date/date/2 and is idempotent;
on a board that already has a column the persistent seeding step is a no-op,
as is the guarded guest seeding call; the fresh guest view carries exactly the
three defaults. -/
theorem default_columns_seeding :
    (∀ (db : DB) (b : Nat),
        (db.board_columns.filter (fun c => c.board_id == b)).length = 0 →
        ((ensure_default_columns db b).board_columns.filter
            (fun c => c.board_id == b)).map (fun c => (c.name, c.column_type, c.position)) =
          [("Status", "status", 0), ("Notes", "text", 1), ("Due Date", "date", 2)] ∧
        ensure_default_columns (ensure_default_columns db b) b = ensure_default_columns db b) ∧
    (∀ (db : DB) (b : Nat),
        db.board_columns.filter (fun c => c.board_id == b) ≠ [] →
        ensure_default_columns db b = db) ∧
    task_table_view_init_guest.guest_columns.map (fun c => (c.name, c.column_type, c.position)) =
      [("Status", "status", 0), ("Notes", "text", 1), ("Due Date", "date", 2)] ∧
    (∀ s : GuestState, s.guest_columns ≠ [] → seed_default_columns_guest s = s) := by
  refine ⟨?_, ?_, by decide, ?_⟩
  · intro db b h0
    have hfe : db.board_columns.filter (fun c => c.board_id == b) = [] :=
      List.length_eq_zero.mp h0
    constructor
    · simp [ensure_default_columns, h0, hfe, List.filter_append]
    · simp [ensure_default_columns, h0, hfe, List.filter_append]
  · intro db b hne
    have h1 : ((db.board_columns.filter (fun c => c.board_id == b)).length == 0) = false := by
      rw [beq_eq_false_iff_ne]
      simpa [List.length_eq_zero] using hne
    simp [ensure_default_columns, h1]
  · intro s h
    have h1 : s.guest_columns.isEmpty = false := by simpa [List.isEmpty_iff] using h
    simp [seed_default_columns_guest, h1]

/-- C5 witness: seeding board 1 of the empty database, plus the no-op cases on
already-seeded states. -/
theorem default_columns_seeding_witness :
    (emptyDB.board_columns.filter (fun c => c.board_id == 1)).length = 0 ∧
    ((ensure_default_columns emptyDB 1).board_columns.filter
        (fun c => c.board_id == 1)).map (fun c => (c.name, c.column_type, c.position)) =
      [("Status", "status", 0), ("Notes", "text", 1), ("Due Date", "date", 2)] ∧
    ensure_default_columns (ensure_default_columns emptyDB 1) 1 =
      ensure_default_columns emptyDB 1 ∧
    ensure_default_columns populatedDB 1 = populatedDB ∧
    seed_default_columns_guest populatedGuest = populatedGuest :=
  ⟨by decide,
   (default_columns_seeding.1 emptyDB 1 (by decide)).1,
   (default_columns_seeding.1 emptyDB 1 (by decide)).2,
   default_columns_seeding.2.1 populatedDB 1 (by decide),
   default_columns_seeding.2.2.2 populatedGuest (by decide)⟩

/-- C6: deleting a board removes all of its columns, tasks and cells — the
cascade runs board → columns, board → tasks and transitively task → cells —
so with unique row ids none of the board's former children can be found by id
afterwards. The premises instantiate the claim's "≥ 1 task and ≥ 1 column with
≥ 1 cell" board. -/
theorem delete_board_cascade (db : DB) (b : DBBoard)
    (hfind : db.boards.find? (fun x => x.id == b.id) = some b)
    (hcolids : (db.board_columns.map (fun c => c.id)).Nodup)
    (htaskids : (db.tasks.map (fun t => t.id)).Nodup)
    (hcellids : (db.task_cells.map (fun c => c.id)).Nodup)
    (col : DBColumn) (hcolmem : col ∈ db.board_columns) (hcolb : col.board_id = b.id)
    (tk : DBTask) (htkmem : tk ∈ db.tasks) (htkb : tk.board_id = b.id)
    (cl : DBCell) (hclmem : cl ∈ db.task_cells)
    (_hclc : cl.column_id = col.id) (hclt : cl.task_id = tk.id) :
    (delete_board_db db b.id).1.boards.find? (fun x => x.id == b.id) = none ∧
    (delete_board_db db b.id).1.board_columns.find? (fun x => x.id == col.id) = none ∧
    (delete_board_db db b.id).1.tasks.find? (fun x => x.id == tk.id) = none ∧
    (delete_board_db db b.id).1.task_cells.find? (fun x => x.id == cl.id) = none := by
  unfold delete_board_db
  rw [hfind]
  refine ⟨?_, ?_, ?_, ?_⟩
  · apply List.find?_eq_none.mpr
    intro x hx
    have h2 := (List.mem_filter.mp hx).2
    simpa using h2
  · apply List.find?_eq_none.mpr
    intro x hx hpx
    have h1 := (List.mem_filter.mp hx).1
    have h2 := (List.mem_filter.mp hx).2
    have hxid : x.id = col.id := by simpa using hpx
    have hxeq : x = col := List.inj_on_of_nodup_map hcolids h1 hcolmem hxid
    rw [hxeq, hcolb] at h2
    simp at h2
  · apply List.find?_eq_none.mpr
    intro x hx hpx
    have h1 := (List.mem_filter.mp hx).1
    have h2 := (List.mem_filter.mp hx).2
    have hxid : x.id = tk.id := by simpa using hpx
    have hxeq : x = tk := List.inj_on_of_nodup_map htaskids h1 htkmem hxid
    rw [hxeq, htkb] at h2
    simp at h2
  · apply List.find?_eq_none.mpr
    intro x hx hpx
    have h1 := (List.mem_filter.mp hx).1
    have h2 := (List.mem_filter.mp hx).2
    have hxid : x.id = cl.id := by simpa using hpx
    have hxeq : x = cl := List.inj_on_of_nodup_map hcellids h1 hclmem hxid
    have hmem : cl.task_id ∈ (db.tasks.filter (fun t => t.board_id == b.id)).map
        (fun t => t.id) := by
      rw [hclt]
      exact List.mem_map_of_mem _ (List.mem_filter.mpr ⟨htkmem, by simp [htkb]⟩)
    rw [hxeq] at h2
    have hnmem : cl.task_id ∉ (db.tasks.filter (fun t => t.board_id == b.id)).map
        (fun t => t.id) := by simpa using h2
    exact hnmem hmem

/-- C6 witness: the cascade on `populatedDB` (board 1 with one column, one
task, one cell) removes all children. -/
theorem delete_board_cascade_witness :
    (delete_board_db populatedDB 1).1.boards.find? (fun x => x.id == 1) = none ∧
    (delete_board_db populatedDB 1).1.board_columns.find? (fun x => x.id == 1) = none ∧
    (delete_board_db populatedDB 1).1.tasks.find? (fun x => x.id == 1) = none ∧
    (delete_board_db populatedDB 1).1.task_cells.find? (fun x => x.id == 1) = none :=
  delete_board_cascade populatedDB { id := 1, name := "B", user_id := 1 }
    (by decide) (by decide) (by decide) (by decide)
    { id := 1, board_id := 1, name := "Status", column_type := "status", position := 0 }
    (by decide) rfl
    { id := 1, board_id := 1, name := "New Task 1", position := 0 }
    (by decide) rfl
    { id := 1, task_id := 1, column_id := 1, value := "x" }
    (by decide) rfl rfl

/-- C7 counterexample: on the empty database, renaming or deleting board 1
(which does not exist) surfaces no snackbar at all — in particular no
NotFound error — so "fails with Error(NotFound)" is false; the state is
returned unchanged. -/
theorem board_missing_id_counterexample :
    rename_board_db emptyDB 1 "X" = (emptyDB, none) ∧
    delete_board_db emptyDB 1 = (emptyDB, none) := by
  decide

/-- C7 (amended): a rename or delete of a missing board id surfaces no
NotFound error: the persistent backend is a silent no-op (state unchanged, no
message at all), and the guest backend leaves the board list unchanged while
still surfacing its usual success snackbar; every such failed mutation leaves
the stored state unchanged, as does the empty-name rename rejection. -/
theorem board_mutation_missing_id_spec (db : DB) (bid : Nat) (nm : String)
    (hnm : nm ≠ "")
    (hmiss : db.boards.find? (fun x => x.id == bid) = none) :
    rename_board_db db bid nm = (db, none) ∧
    delete_board_db db bid = (db, none) ∧
    rename_board_db db bid "" = (db, some (.err "Board name is required")) ∧
    (∀ (gs : SidebarState) (bn : String),
        gs.guest_boards.find? (fun x => x.id == bid) = none →
        (rename_board_guest gs bid nm).1 = gs ∧
        (rename_board_guest gs bid nm).2 = some (.ok ("Board renamed to " ++ nm)) ∧
        (delete_board_guest gs bid bn).1 = gs ∧
        (delete_board_guest gs bid bn).2 = some (.ok ("Board " ++ bn ++ " deleted"))) := by
  have hnm2 : (nm == "") = false := beq_eq_false_iff_ne.mpr hnm
  refine ⟨?_, ?_, ?_, ?_⟩
  · simp [rename_board_db, hnm2, hmiss]
  · simp [delete_board_db, hmiss]
  · simp [rename_board_db]
  · intro gs bn hgs
    have hupd : updateFirst (fun x => x.id == bid) (fun x => { x with name := nm })
        gs.guest_boards = gs.guest_boards :=
      updateFirst_of_find?_none _ hgs
    have hfilter : gs.guest_boards.filter (fun x => x.id != bid) = gs.guest_boards :=
      List.filter_eq_self.mpr (fun a ha => by
        simpa using List.find?_eq_none.mp hgs a ha)
    refine ⟨?_, ?_, ?_, rfl⟩
    · simp [rename_board_guest, hnm2, hupd]
    · simp [rename_board_guest, hnm2]
    · simp [delete_board_guest, hfilter]

/-- C7 witness: concrete missing id 9 on the empty database. -/
theorem board_mutation_missing_id_spec_witness :
    ("X" : String) ≠ "" ∧
    emptyDB.boards.find? (fun x => x.id == 9) = none ∧
    rename_board_db emptyDB 9 "X" = (emptyDB, none) ∧
    delete_board_db emptyDB 9 = (emptyDB, none) :=
  ⟨by decide, by decide,
   (board_mutation_missing_id_spec emptyDB 9 "X" (by decide) (by decide)).1,
   (board_mutation_missing_id_spec emptyDB 9 "X" (by decide) (by decide)).2.1⟩

/-- C8: registration checks username and email in one combined lookup:
registering alice succeeds once; any second registration with username
"alice" (whatever the email) hits the single stored row and reports
DuplicateUsername without creating a user; a fresh username with alice's
email reports DuplicateEmail without creating a user; when both fields
collide on the one existing row the username collision is reported. -/
theorem signup_duplicate_spec (hash : String → String) :
    handle_signup hash { users := [], next_user_id := 1 } "alice" "a@x.com" "secret1" "secret1" =
      (aliceDB hash, .created 1) ∧
    (∀ (em pw : String), em ≠ "" → 6 ≤ pw.length →
        handle_signup hash (aliceDB hash) "alice" em pw pw =
          (aliceDB hash, .duplicateUsername)) ∧
    (∀ (un pw : String), un ≠ "" → un ≠ "alice" → 6 ≤ pw.length →
        handle_signup hash (aliceDB hash) un "a@x.com" pw pw =
          (aliceDB hash, .duplicateEmail)) ∧
    handle_signup hash (aliceDB hash) "alice" "a@x.com" "secret2" "secret2" =
      (aliceDB hash, .duplicateUsername) := by
  refine ⟨rfl, ?_, ?_, rfl⟩
  · intro em pw hem hpw
    have hem2 : (em == "") = false := beq_eq_false_iff_ne.mpr hem
    have hpw2 : (pw == "") = false := beq_eq_false_iff_ne.mpr (fun he => by
      rw [he] at hpw
      simp at hpw)
    simp [handle_signup, aliceDB, hem2, hpw2, Nat.not_lt.mpr hpw]
  · intro un pw hun hune hpw
    have hun2 : (un == "") = false := beq_eq_false_iff_ne.mpr hun
    have hune2 : (("alice" : String) == un) = false :=
      beq_eq_false_iff_ne.mpr (fun he => hune he.symm)
    have hpw2 : (pw == "") = false := beq_eq_false_iff_ne.mpr (fun he => by
      rw [he] at hpw
      simp at hpw)
    simp [handle_signup, aliceDB, hun2, hune2, hpw2, Nat.not_lt.mpr hpw]

/-- C8 witness: the spec's concrete scenario with identity standing in for the
hash primitive. -/
theorem signup_duplicate_spec_witness :
    ("b@y.com" : String) ≠ "" ∧ 6 ≤ ("secret2" : String).length ∧
    ("bob" : String) ≠ "" ∧ ("bob" : String) ≠ "alice" ∧
    handle_signup (fun s => s) (aliceDB (fun s => s)) "alice" "b@y.com" "secret2" "secret2" =
      (aliceDB (fun s => s), .duplicateUsername) ∧
    handle_signup (fun s => s) (aliceDB (fun s => s)) "bob" "a@x.com" "secret3" "secret3" =
      (aliceDB (fun s => s), .duplicateEmail) :=
  ⟨by decide, by decide, by decide, by decide,
   (signup_duplicate_spec (fun s => s)).2.1 "b@y.com" "secret2" (by decide) (by decide),
   (signup_duplicate_spec (fun s => s)).2.2.1 "bob" "secret3" (by decide) (by decide) (by decide)⟩

/-- C9: failed authentication does not distinguish an unknown username from a
wrong password: for every non-empty credential pair, both failure causes
surface the identical error "Invalid username or password", and any error the
login produces is that one string. -/
theorem login_error_uniformity (verify : String → String → Bool)
    (users : List DBUser) (un pw : String) (hun : un ≠ "") (hpw : pw ≠ "") :
    (users.find? (fun u => u.username == un) = none →
        handle_login verify users un pw = .invalid "Invalid username or password") ∧
    (∀ u : DBUser, users.find? (fun x => x.username == un) = some u →
        verify pw u.password_hash = false →
        handle_login verify users un pw = .invalid "Invalid username or password") ∧
    (∀ msg : String, handle_login verify users un pw = .invalid msg →
        msg = "Invalid username or password") := by
  have hun2 : (un == "") = false := beq_eq_false_iff_ne.mpr hun
  have hpw2 : (pw == "") = false := beq_eq_false_iff_ne.mpr hpw
  refine ⟨?_, ?_, ?_⟩
  · intro hnone
    simp [handle_login, hun2, hpw2, hnone]
  · intro u hu hv
    simp [handle_login, hun2, hpw2, hu, hv]
  · intro msg hmsg
    unfold handle_login at hmsg
    rw [hun2, hpw2] at hmsg
    simp only [Bool.or_self, Bool.false_eq_true, if_false] at hmsg
    cases hfind : users.find? (fun x => x.username == un) with
    | none =>
        rw [hfind] at hmsg
        simpa using hmsg.symm
    | some u =>
        rw [hfind] at hmsg
        dsimp only at hmsg
        cases hv : verify pw u.password_hash with
        | true =>
            rw [hv] at hmsg
            simp at hmsg
        | false =>
            rw [hv] at hmsg
            simpa using hmsg.symm

/-- C9 witness: unknown user "bob" and known user "alice" with a wrong
password produce the same error against a one-user store. -/
theorem login_error_uniformity_witness :
    ("bob" : String) ≠ "" ∧ ("alice" : String) ≠ "" ∧ ("wrong" : String) ≠ "" ∧
    handle_login (fun p h => p == h)
      [{ id := 1, username := "alice", email := "a@x.com", password_hash := "pw1234" }]
      "bob" "wrong" = .invalid "Invalid username or password" ∧
    handle_login (fun p h => p == h)
      [{ id := 1, username := "alice", email := "a@x.com", password_hash := "pw1234" }]
      "alice" "wrong" = .invalid "Invalid username or password" :=
  ⟨by decide, by decide, by decide,
   (login_error_uniformity (fun p h => p == h)
      [{ id := 1, username := "alice", email := "a@x.com", password_hash := "pw1234" }]
      "bob" "wrong" (by decide) (by decide)).1 (by decide),
   (login_error_uniformity (fun p h => p == h)
      [{ id := 1, username := "alice", email := "a@x.com", password_hash := "pw1234" }]
      "alice" "wrong" (by decide) (by decide)).2.1
      { id := 1, username := "alice", email := "a@x.com", password_hash := "pw1234" }
      (by decide) (by decide)⟩

/-- C10: guest board data lives in the table-view instance, and every board
selection or sidebar refresh constructs a fresh instance: the rebuilt state is
the initial one regardless of any previous guest edits, and that initial state
holds exactly the three default columns, zero tasks and no cell values. -/
theorem guest_state_reset_on_rebuild :
    (∀ old : GuestState, refresh_board_view_guest old = task_table_view_init_guest) ∧
    task_table_view_init_guest.guest_columns.map (fun c => (c.name, c.column_type, c.position)) =
      [("Status", "status", 0), ("Notes", "text", 1), ("Due Date", "date", 2)] ∧
    task_table_view_init_guest.guest_tasks = [] ∧
    task_table_view_init_guest.guest_cells = [] ∧
    (∀ (t c : Nat), get_cell_value_guest task_table_view_init_guest t c = "") :=
  ⟨fun _ => rfl, by decide, rfl, rfl, fun _ _ => rfl⟩

end Tusday
